import Mathlib

/-!
Verification of the availability-classifier core of `amulStockAlert.py`.

Modelling conventions (the shallow embedding):

* A Python `str` is modelled as `List Char` (a sequence of code points).
  Python substring membership (`needle in hay`) is `pyIn`, `str.lower()` is
  `pyLower` (per-code-point lowering, exact for the ASCII phrases involved),
  and Python truthiness of an optional string attribute is `py_truthy`
  (`None` and the empty string are falsy, every other string is truthy).
* `BeautifulSoup(content, "html.parser")` is the abstraction boundary: the
  parse result is passed in as a `Soup` value (anchors, text inputs, classed
  elements, each carrying the attributes the source reads).  The classifier
  itself is translated line by line from `is_product_available`,
  `text_based_availability_check` and `extract_price` in
  `src/amulStockAlert.py`.
* The source file is stored in a damaged encoding: where the page text would
  contain the rupee sign U+20B9, the source literals contain the three
  characters U+201A, U+00C7, U+03C0 (the UTF-8 bytes of the rupee sign
  re-decoded through MacRoman).  The embedding keeps the literal characters
  that are really in the file; see `rupee_moji`.
-/

/-- Python `str.lower()` applied per code point. -/
def pyLower (s : List Char) : List Char := s.map Char.toLower

/-- Python substring test `needle in hay` (contiguous substring). -/
def pyIn (needle : List Char) : List Char → Bool
  | [] => needle.isEmpty
  | c :: hay => needle.isPrefixOf (c :: hay) || pyIn needle hay

/-- Python truthiness of an optional string value: `None` and `""` are falsy. -/
def py_truthy : Option (List Char) → Bool
  | none => false
  | some s => !s.isEmpty

/-- The three literal characters that stand in the source file where the rupee
sign was intended: U+201A, U+00C7, U+03C0 (mojibake of U+20B9).  They appear in
the regex of `extract_price` (line 290/295/301) and in the currency test of
line 199. -/
def rupee_moji : List Char := [Char.ofNat 0x201A, Char.ofNat 0xC7, Char.ofNat 0x3C0]

/-- An `<a>` element as read by `is_product_available`: its class list, its
`get_text(strip=True)` text, and the `disabled`, `href` and `onclick`
attributes (absent = `none`). -/
structure Anchor where
  classes : List (List Char)
  textStripped : List Char
  disabled : Option (List Char)
  href : Option (List Char)
  onclick : Option (List Char)
deriving DecidableEq

/-- An `<input>` element as read by method 2 of `is_product_available`. -/
structure InputElem where
  typeAttr : List Char
  placeholder : Option (List Char)
  disabled : Option (List Char)
deriving DecidableEq

/-- A generic element with a class list and stripped text, as read by method 3
of `is_product_available` and by the selector loop of `extract_price`. -/
structure ClassedElem where
  classes : List (List Char)
  textStripped : List Char
deriving DecidableEq

/-- The BeautifulSoup parse of the page, taken as an abstract input: all `<a>`
elements, all `<input>` elements, and all classed elements, in document
order. -/
structure Soup where
  anchors : List Anchor
  inputs : List InputElem
  elems : List ClassedElem
deriving DecidableEq

/-- Lines 178-181: the deny-list check on the CSS classes of a candidate
button; a deny-listed class makes the loop `continue` (`none`), otherwise the
function returns `True` (line 184). -/
def button_class_check (b : Anchor) : Option Bool :=
  if b.classes.any (fun cls =>
      cls = "disabled".toList || cls = "btn-disabled".toList || cls = "out-of-stock".toList)
  then none
  else some true

/-- Lines 158-184: the body of the `for button in add_to_cart_buttons` loop
for one candidate.  `some true` models `return True`, `none` models falling
through to the next candidate.  Note that in the `disabled is None` branch the
guard `button.get('href') or button.get('onclick') or not button.get('disabled')`
re-reads the absent attribute, so its third disjunct is `not None`, which is
always true. -/
def button_candidate_result (b : Anchor) : Option Bool :=
  if pyIn "add to cart".toList (pyLower b.textStripped) then
    match b.disabled with
    | none =>
        if py_truthy b.href || py_truthy b.onclick || !(py_truthy b.disabled) then some true
        else button_class_check b
    | some d =>
        if d = "0".toList then some true
        else if d = "1".toList || pyLower d = "true".toList then none
        else button_class_check b
  else none

/-- Line 156: `soup.find_all('a', class_='add-to-cart')` — all anchors whose
class list contains the token `add-to-cart`. -/
def add_to_cart_buttons (soup : Soup) : List Anchor :=
  soup.anchors.filter (fun b => decide ("add-to-cart".toList ∈ b.classes))

/-- Lines 156-184 (method 1): scan the candidate buttons in document order;
the first candidate that returns decides the stage, otherwise it yields
`false` and the caller moves on to method 2. -/
def check_buttons : List Anchor → Bool
  | [] => false
  | b :: bs =>
      match button_candidate_result b with
      | some r => r
      | none => check_buttons bs

/-- Lines 188-191: the per-input test of method 2 — placeholder equal to
`Quantity` and a non-truthy `disabled` attribute. -/
def quantity_input_available (i : InputElem) : Bool :=
  decide (i.placeholder = some "Quantity".toList) && !(py_truthy i.disabled)

/-- Lines 187-191 (method 2): `soup.find_all('input', {'type': 'text'})`, then
return `True` for the first field with placeholder `Quantity` that is not
disabled. -/
def check_quantity_inputs (inputs : List InputElem) : Bool :=
  (inputs.filter (fun i => decide (i.typeAttr = "text".toList))).any quantity_input_available

/-- Lines 194-200 (method 3): elements with a class containing `price` or
`mrp` (case-insensitively); if any of them shows the currency marker of the
source (see `rupee_moji`) or the letters `rs`, return `True`. -/
def check_price_elements (elems : List ClassedElem) : Bool :=
  (elems.filter (fun e =>
      e.classes.any (fun cls =>
        pyIn "price".toList (pyLower cls) || pyIn "mrp".toList (pyLower cls)))).any
    (fun e => pyIn rupee_moji e.textStripped || pyIn "rs".toList (pyLower e.textStripped))

/-- Lines 206-216: the unavailability phrases of method 4. -/
def unavailable_patterns : List (List Char) :=
  ["out of stock".toList,
   "sold out".toList,
   "currently unavailable".toList,
   "notify when available".toList,
   "coming soon".toList,
   "temporarily out of stock".toList,
   "not available".toList,
   "stock not available".toList,
   "currently out of stock".toList]

/-- Lines 223-229: the availability phrases of method 4. -/
def available_patterns : List (List Char) :=
  ["in stock".toList,
   "available now".toList,
   "buy now".toList,
   "available for purchase".toList,
   "add to cart".toList]

/-- Lines 202-237 (method 4): the text-pattern stage run on the full content.
An unavailability phrase returns `False` at once; otherwise an availability
phrase returns `True` only when neither `not ` nor `no ` prepended to that
phrase occurs in the lower-cased content; otherwise `False`. -/
def text_pattern_fallback (content : List Char) : Bool :=
  let content_lower := pyLower content
  if unavailable_patterns.any (fun p => pyIn p content_lower) then false
  else available_patterns.any (fun p =>
    pyIn p content_lower
      && !(pyIn ("not ".toList ++ p) content_lower)
      && !(pyIn ("no ".toList ++ p) content_lower))

/-- Lines 149-237: `is_product_available(content, product)` in the normal case
where BeautifulSoup is importable and raises nothing.  `soup` is the parse of
`content`; the `product` argument is not used by the decision logic. -/
def is_product_available (content : List Char) (soup : Soup) : Bool :=
  if check_buttons (add_to_cart_buttons soup) then true
  else if check_quantity_inputs soup.inputs then true
  else if check_price_elements soup.elems then true
  else text_pattern_fallback content

/-- Lines 252-255: the unavailability phrases of the no-BeautifulSoup
fallback. -/
def out_of_stock_patterns : List (List Char) :=
  ["out of stock".toList,
   "sold out".toList,
   "currently unavailable".toList,
   "notify when available".toList,
   "coming soon".toList,
   "not available".toList]

/-- Lines 262-264: the availability phrases of the no-BeautifulSoup
fallback. -/
def in_stock_patterns : List (List Char) :=
  ["add to cart".toList,
   "buy now".toList,
   "in stock".toList,
   "available".toList]

/-- Lines 247-271: `text_based_availability_check(content)`, the stage used
when no markup-parsing capability exists.  Note that its availability loop has
no negation guard. -/
def text_based_availability_check (content : List Char) : Bool :=
  let content_lower := pyLower content
  if out_of_stock_patterns.any (fun p => pyIn p content_lower) then false
  else in_stock_patterns.any (fun p => pyIn p content_lower)

/-- Matching the regex of lines 290/295 at one fixed position: the literal
marker characters of the source (see `rupee_moji`), then a maximal non-empty
run of digits and commas, then optionally a dot followed by exactly two
digits.  The optional group can only start where the digit-comma run is
maximal, so greedy matching needs no backtracking here. -/
def price_regex_at (cs : List Char) : Option (List Char) :=
  if rupee_moji.isPrefixOf cs then
    let rest := cs.drop rupee_moji.length
    let ds := rest.takeWhile (fun c => c.isDigit || c = ',')
    if ds.isEmpty then none
    else
      match rest.drop ds.length with
      | '.' :: d1 :: d2 :: _ =>
          if d1.isDigit && d2.isDigit then some (rupee_moji ++ ds ++ ['.', d1, d2])
          else some (rupee_moji ++ ds)
      | _ => some (rupee_moji ++ ds)
  else none

/-- Python `re.search` for the price regex: the match at the leftmost position
where one exists, `none` when no position matches. -/
def re_search_price : List Char → Option (List Char)
  | [] => none
  | c :: cs =>
      match price_regex_at (c :: cs) with
      | some m => some m
      | none => re_search_price cs

/-- One class-token CSS selector such as `.price`: the first element whose
class list contains the token. -/
def select_class (elems : List ClassedElem) (cls : List Char) : Option ClassedElem :=
  elems.find? (fun e => decide (cls ∈ e.classes))

/-- A substring attribute selector such as the bracketed `class*=` form: the
first element one of whose class tokens contains the string (the needles used
contain no space, so token-wise containment agrees with containment in the
space-joined attribute value). -/
def select_class_contains (elems : List ClassedElem) (s : List Char) : Option ClassedElem :=
  elems.find? (fun e => e.classes.any (fun cls => pyIn s cls))

/-- Lines 280-283: the results of `soup.select_one` for the six price
selectors, in order. -/
def price_selector_hits (elems : List ClassedElem) : List (Option ClassedElem) :=
  [select_class elems "price".toList,
   select_class elems "product-price".toList,
   select_class elems "selling-price".toList,
   select_class elems "mrp".toList,
   select_class_contains elems "price".toList,
   select_class_contains elems "cost".toList]

/-- Lines 285-292: try each selector in order; when an element is found and
its text matches the price regex, return the match, otherwise continue with
the next selector. -/
def first_selector_price : List (Option ClassedElem) → Option (List Char)
  | [] => none
  | none :: rest => first_selector_price rest
  | some e :: rest =>
      match re_search_price e.textStripped with
      | some m => some m
      | none => first_selector_price rest

/-- Lines 273-307: `extract_price(content, product)` in the normal
BeautifulSoup case; `elems` is the classed-element list of the parse of
`content`.  After the selector loop, a global regex search over the whole
content; `none` when nothing matches anywhere. -/
def extract_price (content : List Char) (elems : List ClassedElem) : Option (List Char) :=
  match first_selector_price (price_selector_hits elems) with
  | some m => some m
  | none => re_search_price content

/-- The literal notification label of line 402 for the available direction:
`Available ` followed by the three source characters U+201A, U+00FA, U+00D6
(mojibake of the check-mark emoji). -/
def available_label : String :=
  "Available " ++ String.mk [Char.ofNat 0x201A, Char.ofNat 0xFA, Char.ofNat 0xD6]

/-- The literal notification label of line 402 for the out-of-stock direction:
`Out of Stock ` followed by the three source characters U+201A, U+00F9,
U+00E5 (mojibake of the cross-mark emoji). -/
def out_of_stock_label : String :=
  "Out of Stock " ++ String.mk [Char.ofNat 0x201A, Char.ofNat 0xF9, Char.ofNat 0xE5]

/-- Line 402: `status_change = "Available ..." if current_available else
"Out of Stock ..."`. -/
def status_change_label (current_available : Bool) : String :=
  if current_available then available_label else out_of_stock_label

/-- One entry of `notifications_sent` (line 412), restricted to the fields the
claims are about; the transport result booleans are collaborator output and
are not modelled. -/
structure NotificationRecord where
  product : String
  status : String
deriving DecidableEq

/-- Lines 397-398: `self.previous_state.get(product.name, {}).get('available',
False)`.  The loaded state maps a product name to the `available` field of its
stored observation when that field exists; a missing record and a record
without the field both default to `False`. -/
def previous_available (prev : List (String × Option Bool)) (name : String) : Bool :=
  match prev.lookup name with
  | some (some b) => b
  | some none => false
  | none => false

/-- Lines 390-422: the body of `monitor_products` over the product list, in
the run where no exception escapes (every per-product error is caught inside
`check_product_availability`).  `check` abstracts the availability flag the
network check yields for each product, `prev` is `self.previous_state` as
loaded at the start of the run, and `current` threads the `current_state`
dictionary exactly as the source builds it (restricted to the per-product
availability flags).  The result is the final `current_state` together with
`notifications_sent` in product order. -/
def monitor_loop (prev : List (String × Option Bool)) (check : String → Bool) :
    List String → List (String × Bool) → List (String × Bool) × List NotificationRecord
  | [], current => (current, [])
  | p :: ps, current =>
      let avail := check p
      let current2 := current ++ [(p, avail)]
      let rest := monitor_loop prev check ps current2
      if previous_available prev p != avail then
        (rest.1, ⟨p, status_change_label avail⟩ :: rest.2)
      else
        (rest.1, rest.2)

/-- Lines 376-433: one full run of `monitor_products`, starting from an empty
per-product `current_state`; the first component is the state that line 433
installs as `self.previous_state` after the loop, the second is
`notifications_sent`. -/
def monitor_products (prev : List (String × Option Bool)) (check : String → Bool)
    (products : List String) : List (String × Bool) × List NotificationRecord :=
  monitor_loop prev check products []

/-- The per-product notification events computed from the start-of-run state
alone, with no threading of the in-run `current_state`; used to state that
the loop above never lets earlier products influence later change
detection. -/
def change_events (prev : List (String × Option Bool)) (check : String → Bool) :
    List String → List NotificationRecord
  | [] => []
  | p :: ps =>
      (if previous_available prev p != check p
       then [⟨p, status_change_label (check p)⟩] else [])
        ++ change_events prev check ps

/-- Line 33 of the source file, byte for byte: eight spaces of indentation
followed by bare text with no leading hash mark, inside the body of
`StockMonitor.__init__`. -/
def line33 : List Char :=
  "        Configuration - use environment variables for security".toList

/-- A token of the fragment of the Python lexer needed for line 33: a NAME
(identifier) or a single operator character. -/
inductive PyTok
  | name (s : List Char)
  | op (c : Char)
deriving DecidableEq

/-- Whether a character may start a Python identifier (ASCII fragment). -/
def isIdentStart (c : Char) : Bool := c.isAlpha || c = '_'

/-- Whether a character may continue a Python identifier (ASCII fragment). -/
def isIdentChar (c : Char) : Bool := c.isAlphanum || c = '_'

/-- Tokenizer for one line of ASCII Python: spaces separate tokens, maximal
identifier runs become NAME tokens, every other character is an operator
token.  `acc` holds the reversed characters of the identifier being read. -/
def pyTokAux : Option (List Char) → List Char → List PyTok
  | acc, [] => match acc with | some n => [.name n.reverse] | none => []
  | some n, c :: cs =>
      if isIdentChar c then pyTokAux (some (c :: n)) cs
      else if c = ' ' then .name n.reverse :: pyTokAux none cs
      else .name n.reverse :: .op c :: pyTokAux none cs
  | none, c :: cs =>
      if c = ' ' then pyTokAux none cs
      else if isIdentStart c then pyTokAux (some [c]) cs
      else .op c :: pyTokAux none cs

/-- Tokenize one source line. -/
def pyTokenize (l : List Char) : List PyTok := pyTokAux none l

/-- The keywords of Python 3, together with its soft keywords; a NAME token
carrying one of these can legally stand next to another NAME in some
productions, a NAME outside this list cannot. -/
def pythonKeywords : List (List Char) :=
  ["False".toList, "None".toList, "True".toList, "and".toList, "as".toList,
   "assert".toList, "async".toList, "await".toList, "break".toList,
   "class".toList, "continue".toList, "def".toList, "del".toList,
   "elif".toList, "else".toList, "except".toList, "finally".toList,
   "for".toList, "from".toList, "global".toList, "if".toList,
   "import".toList, "in".toList, "is".toList, "lambda".toList,
   "nonlocal".toList, "not".toList, "or".toList, "pass".toList,
   "raise".toList, "return".toList, "try".toList, "while".toList,
   "with".toList, "yield".toList, "match".toList, "case".toList,
   "type".toList, "_".toList]

/-- Whether the token stream contains two adjacent NAME tokens neither of
which is a keyword or soft keyword. -/
def hasBareNamePair : List PyTok → Bool
  | .name a :: .name b :: rest =>
      (!pythonKeywords.contains a && !pythonKeywords.contains b)
        || hasBareNamePair (.name b :: rest)
  | _ :: rest => hasBareNamePair rest
  | [] => false

/-- Whether a line is blank up to spaces. -/
def isBlankLine (l : List Char) : Bool := (l.dropWhile (· = ' ')).isEmpty

/-- Whether a line is a comment: its first non-space character is a hash
mark. -/
def isCommentLine (l : List Char) : Bool :=
  match l.dropWhile (· = ' ') with
  | '#' :: _ => true
  | _ => false

/-- Modelled fragment of the Python grammar: a sufficient condition for a
logical line to be rejected by the CPython parser.  A line that is neither
blank nor a comment and whose token stream juxtaposes two NAME tokens,
neither of which is a keyword or soft keyword, matches no production of the
Python grammar, so compiling the module raises SyntaxError. -/
def python_syntax_error_line (l : List Char) : Bool :=
  !isBlankLine l && !isCommentLine l && hasBareNamePair (pyTokenize l)

/-! ## Helper lemmas -/

/-- `pyIn` decides contiguous-substring containment. -/
theorem pyIn_iff (n h : List Char) : pyIn n h = true ↔ n <:+: h := by
  induction h with
  | nil => simp [pyIn, List.isEmpty_iff]
  | cons c t ih => simp [pyIn, ih, List.infix_cons_iff]

/-- Substring containment transfers along containment of the needles. -/
theorem pyIn_trans {a b h : List Char} (hab : pyIn a b = true) (hbh : pyIn b h = true) :
    pyIn a h = true :=
  (pyIn_iff a h).mpr (List.IsInfix.trans ((pyIn_iff a b).mp hab) ((pyIn_iff b h).mp hbh))

/-- The candidate loop body never yields a `return False`: every branch either
returns `True` or continues with the next candidate. -/
theorem button_candidate_result_ne_some_false (b : Anchor) :
    button_candidate_result b ≠ some false := by
  intro hcontra
  unfold button_candidate_result button_class_check at hcontra
  repeat' split at hcontra
  all_goals simp_all

/-- A candidate accepted as available makes the whole button scan succeed, no
matter where it sits in the list: candidates before it either return `True`
themselves or continue. -/
theorem check_buttons_eq_true {l : List Anchor} {b : Anchor} (hmem : b ∈ l)
    (hres : button_candidate_result b = some true) : check_buttons l = true := by
  induction l with
  | nil => cases hmem
  | cons a l ih =>
    rcases List.mem_cons.mp hmem with rfl | hmem2
    · simp [check_buttons, hres]
    · cases hra : button_candidate_result a with
      | none => simpa [check_buttons, hra] using ih hmem2
      | some r =>
        cases r with
        | true => simp [check_buttons, hra]
        | false => exact absurd hra (button_candidate_result_ne_some_false a)

/-- When every candidate continues, the button scan fails. -/
theorem check_buttons_eq_false {l : List Anchor}
    (h : ∀ b ∈ l, button_candidate_result b = none) : check_buttons l = false := by
  induction l with
  | nil => rfl
  | cons a l ih =>
    have ha := h a (List.mem_cons_self a l)
    have ht := ih (fun b hb => h b (List.mem_cons_of_mem a hb))
    simp [check_buttons, ha, ht]

/-- The notification list produced by the monitoring loop does not depend on
the `current_state` accumulated so far: it equals the events computed from the
start-of-run state alone. -/
theorem monitor_loop_snd (prev : List (String × Option Bool)) (check : String → Bool)
    (ps : List String) : ∀ current,
    (monitor_loop prev check ps current).2 = change_events prev check ps := by
  induction ps with
  | nil => intro c; rfl
  | cons p ps ih =>
    intro c
    simp only [monitor_loop, change_events]
    split <;> simp [ih]

/-- Every event the loop emits is about a product of the run. -/
theorem change_events_products {prev : List (String × Option Bool)} {check : String → Bool} :
    ∀ {ps : List String} {e : NotificationRecord},
      e ∈ change_events prev check ps → e.product ∈ ps := by
  intro ps
  induction ps with
  | nil => intro e he; cases he
  | cons q ps ih =>
    intro e he
    rcases List.mem_append.mp he with h1 | h2
    · split at h1
      · rcases List.mem_singleton.mp h1 with rfl
        exact List.mem_cons_self q ps
      · cases h1
    · exact List.mem_cons_of_mem q (ih h2)

/-- For a product list without duplicates, the events about one product are
exactly the single transition event when its flag changed, and nothing
otherwise. -/
theorem change_events_filter {prev : List (String × Option Bool)} {check : String → Bool} :
    ∀ {ps : List String} {p : String}, ps.Nodup → p ∈ ps →
      (change_events prev check ps).filter (fun e => e.product == p) =
        if previous_available prev p != check p
        then [⟨p, status_change_label (check p)⟩] else [] := by
  intro ps
  induction ps with
  | nil => intro p _ hmem; cases hmem
  | cons q ps ih =>
    intro p hnd hmem
    have hndtl : ps.Nodup := (List.nodup_cons.mp hnd).2
    have hqnotin : q ∉ ps := (List.nodup_cons.mp hnd).1
    rcases List.mem_cons.mp hmem with rfl | hmem2
    · have hrest : (change_events prev check ps).filter (fun e => e.product == p) = [] := by
        rw [List.filter_eq_nil_iff]
        intro e he hp
        exact hqnotin (by simpa [eq_of_beq hp] using change_events_products he)
      simp only [change_events, List.filter_append, hrest, List.append_nil]
      split <;> simp
    · have hqp : q ≠ p := fun hq => hqnotin (hq ▸ hmem2)
      have hfirst :
          ((if previous_available prev q != check q
            then [(⟨q, status_change_label (check q)⟩ : NotificationRecord)] else []).filter
              (fun e => e.product == p)) = [] := by
        split <;> simp [hqp]
      simp only [change_events, List.filter_append, hfirst, List.nil_append]
      exact ih hndtl hmem2

/-! ## Claims -/

/-- C1: in the text-pattern stage, any content whose lower-casing contains one
of the nine fixed unavailability phrases gets the verdict unavailable
(`false`), regardless of any availability phrases also present, both in the
structural-stage fallback (method 4 of `is_product_available`) and in the
no-markup-capability stage (`text_based_availability_check`, whose shorter
six-phrase list subsumes all nine by substring containment). -/
theorem claim_C1_unavailable_phrase_precedence (content : List Char)
    (h : ∃ p ∈ unavailable_patterns, pyIn p (pyLower content) = true) :
    text_pattern_fallback content = false ∧
      text_based_availability_check content = false := by
  obtain ⟨p, hp, hin⟩ := h
  constructor
  · have hany : unavailable_patterns.any (fun q => pyIn q (pyLower content)) = true :=
      List.any_eq_true.mpr ⟨p, hp, hin⟩
    simp [text_pattern_fallback, hany]
  · have hany : out_of_stock_patterns.any (fun q => pyIn q (pyLower content)) = true := by
      simp only [unavailable_patterns, List.mem_cons, List.not_mem_nil, or_false] at hp
      rcases hp with rfl | rfl | rfl | rfl | rfl | rfl | rfl | rfl | rfl
      · exact List.any_eq_true.mpr ⟨"out of stock".toList, by decide, pyIn_trans (by decide) hin⟩
      · exact List.any_eq_true.mpr ⟨"sold out".toList, by decide, pyIn_trans (by decide) hin⟩
      · exact List.any_eq_true.mpr
          ⟨"currently unavailable".toList, by decide, pyIn_trans (by decide) hin⟩
      · exact List.any_eq_true.mpr
          ⟨"notify when available".toList, by decide, pyIn_trans (by decide) hin⟩
      · exact List.any_eq_true.mpr ⟨"coming soon".toList, by decide, pyIn_trans (by decide) hin⟩
      · exact List.any_eq_true.mpr ⟨"out of stock".toList, by decide, pyIn_trans (by decide) hin⟩
      · exact List.any_eq_true.mpr ⟨"not available".toList, by decide, pyIn_trans (by decide) hin⟩
      · exact List.any_eq_true.mpr ⟨"not available".toList, by decide, pyIn_trans (by decide) hin⟩
      · exact List.any_eq_true.mpr ⟨"out of stock".toList, by decide, pyIn_trans (by decide) hin⟩
    simp [text_based_availability_check, hany]

/-- Witness for C1 at a concrete page text containing both an unavailability
phrase and an availability phrase. -/
theorem claim_C1_witness :
    (∃ p ∈ unavailable_patterns,
        pyIn p (pyLower "Temporarily Out Of Stock - Add to Cart".toList) = true) ∧
      text_pattern_fallback "Temporarily Out Of Stock - Add to Cart".toList = false ∧
      text_based_availability_check "Temporarily Out Of Stock - Add to Cart".toList = false :=
  ⟨⟨"temporarily out of stock".toList, by decide, by decide⟩,
   claim_C1_unavailable_phrase_precedence _
     ⟨"temporarily out of stock".toList, by decide, by decide⟩⟩

/-- C2: an add-to-cart-class anchor whose visible text contains `add to cart`
and whose `disabled` attribute is literally the string `0` makes the
classifier return available, whatever else the page contains (the inverted
`0`-means-enabled convention of lines 171-173). -/
theorem claim_C2_inverted_disabled_zero (content : List Char) (soup : Soup) (b : Anchor)
    (hmem : b ∈ soup.anchors)
    (hcls : "add-to-cart".toList ∈ b.classes)
    (htext : pyIn "add to cart".toList (pyLower b.textStripped) = true)
    (hdis : b.disabled = some "0".toList) :
    is_product_available content soup = true := by
  have hres : button_candidate_result b = some true := by
    unfold button_candidate_result
    rw [if_pos htext, hdis]
    rfl
  have hb2 : b ∈ add_to_cart_buttons soup :=
    List.mem_filter.mpr ⟨hmem, decide_eq_true hcls⟩
  simp [is_product_available, check_buttons_eq_true hb2 hres]

/-- Witness for C2 at a concrete one-anchor page. -/
theorem claim_C2_witness :
    is_product_available []
      ⟨[⟨["add-to-cart".toList], "Add to cart".toList, some "0".toList, none, none⟩],
       [], []⟩ = true :=
  claim_C2_inverted_disabled_zero []
    ⟨[⟨["add-to-cart".toList], "Add to cart".toList, some "0".toList, none, none⟩], [], []⟩
    ⟨["add-to-cart".toList], "Add to cart".toList, some "0".toList, none, none⟩
    (by decide) (by decide) (by decide) rfl

/-- An anchor that carries no disabled marker but does carry the deny-listed
class `disabled`; the claim predicts it is skipped, the code accepts it. -/
def markerless_denied_anchor : Anchor :=
  ⟨["add-to-cart".toList, "disabled".toList], "Add to cart".toList, none, none, none⟩

/-- Counterexample to C3: on a page whose only candidate anchor has no
disabled marker and carries the deny-list class `disabled` (and no `href` or
`onclick`), the classifier returns `true`; the claim predicts the candidate is
skipped, which would leave this evidence-free page unavailable.  The guard of
line 169 ends in `not button.get('disabled')`, which is `not None`, so a
markerless candidate is accepted before the deny-list check of lines 179-181
can run. -/
theorem claim_C3_counterexample :
    markerless_denied_anchor.disabled = none ∧
      "disabled".toList ∈ markerless_denied_anchor.classes ∧
      markerless_denied_anchor.href = none ∧
      markerless_denied_anchor.onclick = none ∧
      is_product_available [] ⟨[markerless_denied_anchor], [], []⟩ = true := by
  decide

/-- C3 as amended: a candidate add-to-cart anchor with no disabled marker at
all is accepted immediately, whatever its class list — the deny-list check is
unreachable for markerless candidates, because the third disjunct of the line
169 guard is `not None`.  (The deny-list only applies to candidates whose
disabled value is some string other than `0`, `1` and case-insensitive
`true`.) -/
theorem claim_C3_amended_markerless_always_available (content : List Char) (soup : Soup)
    (b : Anchor) (hmem : b ∈ soup.anchors)
    (hcls : "add-to-cart".toList ∈ b.classes)
    (htext : pyIn "add to cart".toList (pyLower b.textStripped) = true)
    (hdis : b.disabled = none) :
    is_product_available content soup = true := by
  have hres : button_candidate_result b = some true := by
    unfold button_candidate_result
    rw [if_pos htext, hdis]
    simp [py_truthy]
  have hb2 : b ∈ add_to_cart_buttons soup :=
    List.mem_filter.mpr ⟨hmem, decide_eq_true hcls⟩
  simp [is_product_available, check_buttons_eq_true hb2 hres]

/-- Witness for the amended C3 at a concrete page. -/
theorem claim_C3_amended_witness :
    is_product_available [] ⟨[markerless_denied_anchor], [], []⟩ = true :=
  claim_C3_amended_markerless_always_available [] ⟨[markerless_denied_anchor], [], []⟩
    markerless_denied_anchor (by decide) (by decide) (by decide) rfl

/-- A candidate whose disabled marker is `1`, or case-insensitively `true`,
falls into the `continue` branch of lines 174-176. -/
theorem button_candidate_result_disabled_one (b : Anchor)
    (h : b.disabled = some "1".toList ∨
      ∃ d, b.disabled = some d ∧ pyLower d = "true".toList) :
    button_candidate_result b = none := by
  by_cases htext : pyIn "add to cart".toList (pyLower b.textStripped) = true
  · unfold button_candidate_result
    rw [if_pos htext]
    rcases h with h1 | ⟨d, hd, hdt⟩
    · rw [h1]
      rfl
    · rw [hd]
      have h0 : ¬(d = "0".toList) := by
        intro h0
        rw [h0] at hdt
        exact absurd hdt (by decide)
      have h1 : (decide (d = "1".toList) || decide (pyLower d = "true".toList)) = true := by
        simp [hdt]
      show (if d = "0".toList then some true
        else if (decide (d = "1".toList) || decide (pyLower d = "true".toList)) = true
        then none else button_class_check b) = none
      rw [if_neg h0, if_pos h1]
  · unfold button_candidate_result
    rw [if_neg htext]

/-- C4: when every matching add-to-cart anchor carries a disabled marker of
`1` or case-insensitive `true`, and the page offers no other availability
evidence (no enabled quantity input, no currency-bearing price element, no
positive text-pattern verdict), the classifier returns unavailable. -/
theorem claim_C4_all_disabled_unavailable (content : List Char) (soup : Soup)
    (hbuttons : ∀ b ∈ soup.anchors, "add-to-cart".toList ∈ b.classes →
      pyIn "add to cart".toList (pyLower b.textStripped) = true →
      b.disabled = some "1".toList ∨
        ∃ d, b.disabled = some d ∧ pyLower d = "true".toList)
    (hq : check_quantity_inputs soup.inputs = false)
    (hp : check_price_elements soup.elems = false)
    (ht : text_pattern_fallback content = false) :
    is_product_available content soup = false := by
  have hcb : check_buttons (add_to_cart_buttons soup) = false := by
    apply check_buttons_eq_false
    intro b hb
    obtain ⟨hmem, hclsd⟩ := List.mem_filter.mp hb
    have hcls : "add-to-cart".toList ∈ b.classes := of_decide_eq_true hclsd
    by_cases htext : pyIn "add to cart".toList (pyLower b.textStripped) = true
    · exact button_candidate_result_disabled_one b (hbuttons b hmem hcls htext)
    · unfold button_candidate_result
      rw [if_neg htext]
  simp [is_product_available, hcb, hq, hp, ht]

/-- Witness for C4 at a page with one disabled anchor and empty content. -/
theorem claim_C4_witness :
    is_product_available []
      ⟨[⟨["add-to-cart".toList], "Add to cart".toList, some "1".toList, none, none⟩],
       [], []⟩ = false :=
  claim_C4_all_disabled_unavailable []
    ⟨[⟨["add-to-cart".toList], "Add to cart".toList, some "1".toList, none, none⟩], [], []⟩
    (by intro b hb _ _
        have hb2 : b =
            ⟨["add-to-cart".toList], "Add to cart".toList, some "1".toList, none, none⟩ := by
          simpa using hb
        rw [hb2]
        exact Or.inl rfl)
    rfl rfl rfl

/-- Counterexample to C5: the claim says the negation guard applies whenever
the text-pattern stage runs, including when no markup-parsing capability
exists — but `text_based_availability_check`, the stage used in exactly that
case, has no negation guard: on the content `not in stock`, which contains
`not ` prepended to the availability phrase `in stock`, it still returns
available. -/
theorem claim_C5_counterexample :
    pyIn ("not ".toList ++ "in stock".toList) (pyLower "not in stock".toList) = true ∧
      "in stock".toList ∈ in_stock_patterns ∧
      text_based_availability_check "not in stock".toList = true ∧
      text_pattern_fallback "not in stock".toList = false := by
  decide

/-- C5 as amended: the negation guard lives only in method 4 of
`is_product_available` (the structural-stage fallback), where the verdict is
available exactly when no unavailability phrase is present and some
availability phrase occurs without `not ` or `no ` prepended to it as a
literal substring.  The standalone `text_based_availability_check`, used when
no markup-parsing capability exists, applies no negation guard: its verdict is
available exactly when none of its six out-of-stock patterns is present and
some pattern of its own list occurs — with no condition on `not ` or `no `
prefixes. -/
theorem claim_C5_amended_negation_guard (content : List Char) :
    (text_pattern_fallback content = true ↔
      ((∀ p ∈ unavailable_patterns, pyIn p (pyLower content) = false) ∧
       ∃ p ∈ available_patterns, pyIn p (pyLower content) = true ∧
         pyIn ("not ".toList ++ p) (pyLower content) = false ∧
         pyIn ("no ".toList ++ p) (pyLower content) = false))
    ∧ (text_based_availability_check content = true ↔
      ((∀ p ∈ out_of_stock_patterns, pyIn p (pyLower content) = false) ∧
       ∃ p ∈ in_stock_patterns, pyIn p (pyLower content) = true)) := by
  constructor
  · simp only [text_pattern_fallback]
    by_cases h : unavailable_patterns.any (fun p => pyIn p (pyLower content)) = true
    · rw [if_pos h]
      obtain ⟨p, hp, hin⟩ := List.any_eq_true.mp h
      constructor
      · intro hc
        exact Bool.noConfusion hc
      · rintro ⟨hall, -⟩
        rw [hall p hp] at hin
        exact Bool.noConfusion hin
    · rw [if_neg h]
      have hall : ∀ p ∈ unavailable_patterns, pyIn p (pyLower content) = false := by
        intro q hq
        by_contra hqin
        exact h (List.any_eq_true.mpr ⟨q, hq, eq_true_of_ne_false hqin⟩)
      simp only [List.any_eq_true, Bool.and_eq_true, Bool.not_eq_true']
      constructor
      · rintro ⟨p, hp, ⟨h1, h2⟩, h3⟩
        exact ⟨hall, p, hp, h1, h2, h3⟩
      · rintro ⟨-, p, hp, h1, h2, h3⟩
        exact ⟨p, hp, ⟨h1, h2⟩, h3⟩
  · simp only [text_based_availability_check]
    by_cases h : out_of_stock_patterns.any (fun p => pyIn p (pyLower content)) = true
    · rw [if_pos h]
      obtain ⟨p, hp, hin⟩ := List.any_eq_true.mp h
      constructor
      · intro hc
        exact Bool.noConfusion hc
      · rintro ⟨hall, -⟩
        rw [hall p hp] at hin
        exact Bool.noConfusion hin
    · rw [if_neg h]
      have hall : ∀ p ∈ out_of_stock_patterns, pyIn p (pyLower content) = false := by
        intro q hq
        by_contra hqin
        exact h (List.any_eq_true.mpr ⟨q, hq, eq_true_of_ne_false hqin⟩)
      simp only [List.any_eq_true]
      constructor
      · rintro ⟨p, hp, h1⟩
        exact ⟨hall, p, hp, h1⟩
      · rintro ⟨-, p, hp, h1⟩
        exact ⟨p, hp, h1⟩

/-- C6 evaluated on the code: the price regex of lines 290/295 begins with the
literal source characters `rupee_moji`, not with the rupee sign, so a page
containing exactly one currency amount written with the real rupee sign yields
no price at all; a content written with the mojibake marker, by contrast, is
extracted unchanged; and a content with no currency-amount pattern anywhere
yields `none` rather than an error. -/
theorem claim_C6_price_regex_mojibake :
    extract_price "Price: ₹2,499.00".toList [] = none ∧
      rupee_moji ≠ "₹".toList ∧
      extract_price (rupee_moji ++ "2,499.00".toList) []
        = some (rupee_moji ++ "2,499.00".toList) ∧
      extract_price "no currency amount here".toList [] = none := by
  decide

/-- C7: a notification event is raised for a product exactly when the new
observation flag differs from the loaded one, the loaded flag of a product
with no prior record defaults to false, and the event of a newly available
product carries the Available direction label of line 402. -/
theorem claim_C7_notify_iff_flag_changed (prev : List (String × Option Bool))
    (check : String → Bool) (products : List String) (p : String)
    (hnd : products.Nodup) (hmem : p ∈ products) :
    ((monitor_products prev check products).2.filter (fun e => e.product == p) =
      if previous_available prev p != check p
      then [⟨p, status_change_label (check p)⟩] else [])
    ∧ (prev.lookup p = none → previous_available prev p = false) := by
  constructor
  · rw [monitor_products, monitor_loop_snd]
    exact change_events_filter hnd hmem
  · intro h
    simp [previous_available, h]

/-- Witness for C7: a first-ever observation with available=true raises
exactly one notification, with the Available direction label. -/
theorem claim_C7_witness :
    (monitor_products [] (fun _ => true) ["a"]).2.filter (fun e => e.product == "a") =
      [⟨"a", status_change_label true⟩] := by
  have h := (claim_C7_notify_iff_flag_changed [] (fun _ => true) ["a"] "a"
    (List.nodup_singleton "a") (List.mem_singleton.mpr rfl)).1
  simpa [previous_available] using h

/-- C8: throughout a run, change detection reads only the state loaded at the
start — the notification list of the loop is invariant under the
`current_state` accumulated so far, and equals the events computed from the
start-of-run state alone; the state the run installs afterwards is the loop
output, produced only after all products are processed. -/
theorem claim_C8_start_state_only (prev : List (String × Option Bool))
    (check : String → Bool) (products : List String)
    (current current' : List (String × Bool)) :
    ((monitor_loop prev check products current).2 =
        (monitor_loop prev check products current').2)
    ∧ (monitor_products prev check products).2 = change_events prev check products := by
  constructor
  · rw [monitor_loop_snd, monitor_loop_snd]
  · exact monitor_loop_snd prev check products []

/-- C9: the quantity-input check accepts an input only when its disabled
attribute is absent or the empty string — the inverted `0`-means-enabled
convention of the anchors is not applied here, so the string `0` disqualifies
the input, and a page whose only structural evidence is such an input falls
through to the text stage. -/
theorem claim_C9_quantity_disabled_truthiness (d : Option (List Char))
    (content : List Char) (ht : text_pattern_fallback content = false) :
    (quantity_input_available ⟨"text".toList, some "Quantity".toList, d⟩ = true ↔
      (d = none ∨ d = some []))
    ∧ quantity_input_available
        ⟨"text".toList, some "Quantity".toList, some "0".toList⟩ = false
    ∧ is_product_available content
        ⟨[], [⟨"text".toList, some "Quantity".toList, some "0".toList⟩], []⟩ = false := by
  refine ⟨?_, by decide, ?_⟩
  · cases d with
    | none => simp [quantity_input_available, py_truthy]
    | some s => simp [quantity_input_available, py_truthy, List.isEmpty_iff]
  · unfold is_product_available
    rw [if_neg (by decide), if_neg (by decide), if_neg (by decide)]
    exact ht

/-- Witness for C9 at a concrete disabled value and content. -/
theorem claim_C9_witness :
    (quantity_input_available
        ⟨"text".toList, some "Quantity".toList, some "0".toList⟩ = true ↔
      (some "0".toList = none ∨ some "0".toList = some ([] : List Char)))
    ∧ quantity_input_available
        ⟨"text".toList, some "Quantity".toList, some "0".toList⟩ = false
    ∧ is_product_available "sold out".toList
        ⟨[], [⟨"text".toList, some "Quantity".toList, some "0".toList⟩], []⟩ = false :=
  claim_C9_quantity_disabled_truthiness (some "0".toList) "sold out".toList (by decide)

/-- C10: line 33 of the source file is neither blank nor a comment, and its
token stream juxtaposes the two non-keyword NAME tokens `environment` and
`variables`, which no production of the Python grammar allows — compiling the
module therefore raises SyntaxError before any monitoring behavior can run. -/
theorem claim_C10_line33_not_python :
    python_syntax_error_line line33 = true ∧
      isCommentLine line33 = false ∧
      isBlankLine line33 = false ∧
      hasBareNamePair (pyTokenize line33) = true := by
  decide
